import Mathlib

/-
Shallow embedding of `buildfarm/release/release-runner.py` (the release-promotion
orchestrator).  Pure computations (channel derivation, manifest parsing, whitelist
classification) are translated directly; effectful steps (HTTP downloads, GPG
invocations, file digests) are parameterised by an explicit environment recording
the outcome each external call would produce, and the per-run temporary workspace
is tracked as an explicit existence flag threaded through `sanitize_en_US_binary`.
-/

/-- Python exceptions that the embedded code can raise.
`sanityException` models `kickoff.sanity.SanityException`;
`runtimeError` models the `RuntimeError` raised by `update_channels`;
`valueError` models the `ValueError` raised by the 4-way tuple unpacking in
`parse_sha512` (the spec's taxonomy calls this `ManifestFormatError`);
`nameError` models Python's `NameError`/`UnboundLocalError` for a local variable
that was never assigned; `requestError` models a `requests` exception other than
`requests.HTTPError` (connection error, timeout). -/
inductive PyErr where
  | sanityException (msg : String)
  | runtimeError (msg : String)
  | valueError
  | nameError (var : String)
  | requestError
  deriving Repr, DecidableEq

/-- Outcome of one `requests.get(url, timeout=60)` / `r.raise_for_status()` pair:
success, an HTTP status error (`requests.HTTPError`, raised by `raise_for_status`),
or any other `requests` exception (connection failure, timeout), which is *not* a
`requests.HTTPError`. -/
inductive FetchOutcome where
  | ok
  | httpError
  | connError
  deriving Repr, DecidableEq

/-- Python `s.endswith(x)`. -/
def endswith (s x : String) : Bool :=
  x.data.isSuffixOf s.data

/-- `os.path.basename`: the part of the path after the last '/'.  The same
computation implements `release["branch"].split("/")[-1]` in `main`. -/
def basename (s : String) : String :=
  ⟨(s.data.reverse.takeWhile (fun c => c ≠ '/')).reverse⟩

/-- The `CHECKSUMS` whitelist (source lines 40-43), as a list. -/
def CHECKSUMS : List String :=
  [".checksums", ".checksums.asc"]

/-- The `ALL_FILES` whitelist (source lines 46-54), as a list. -/
def ALL_FILES : List String :=
  [".checksums", ".checksums.asc", ".complete.mar", ".exe", ".dmg",
   "i686.tar.bz2", "x86_64.tar.bz2"]

/-- `file_in_whitelist(artifact, whitelist)`: true iff the artifact name ends
with one of the whitelisted suffixes (source lines 135-136). -/
def file_in_whitelist (artifact : String) (whitelist : List String) : Bool :=
  whitelist.any (fun x => endswith artifact x)

/-- `ALL_FILES - CHECKSUMS`, the set difference used at source line 186. -/
def ALL_FILES_sub_CHECKSUMS : List String :=
  ALL_FILES.filter (fun x => !CHECKSUMS.contains x)

/-- `update_channels(version, mappings)` (source lines 57-69).  A compiled
regular expression is embedded as its matching function `String → Bool`
(the truth value of `re.match(pattern, version)`). -/
def update_channels (version : String) :
    List ((String → Bool) × List String) → Except PyErr (List String)
  | [] => .error (.runtimeError ("Cannot find update channels for " ++ version))
  | (pattern, channels) :: mappings =>
    if pattern version then .ok channels else update_channels version mappings

/-- Split a character list on '.', keeping empty groups, so that a string is
the '.'-join of the returned groups and no group contains '.'. -/
def splitDots : List Char → List (List Char)
  | [] => [[]]
  | c :: cs =>
    if c = '.' then [] :: splitDots cs
    else
      match splitDots cs with
      | [] => [[c]]
      | g :: gs => (c :: g) :: gs

/-- Matching function of the regular expression `^\d+\.0$` under `re.match`
(first doctest mapping of `update_channels`): one or more digits, a literal
dot, then the single character '0'.  (`$` is taken as strict end of string;
the inputs of interest contain no trailing newline.) -/
def re_major_dot_zero (s : String) : Bool :=
  match splitDots s.data with
  | [a, b] => (!a.isEmpty) && a.all Char.isDigit && (b == ['0'])
  | _ => false

/-- Matching function of the regular expression `^\d+\.\d+\.\d+$` under
`re.match`: three nonempty digit groups separated by literal dots. -/
def re_three_part_version (s : String) : Bool :=
  match splitDots s.data with
  | [a, b, c] =>
    (!a.isEmpty) && (!b.isEmpty) && (!c.isEmpty) &&
      a.all Char.isDigit && b.all Char.isDigit && c.all Char.isDigit
  | _ => false

/-- Python dict assignment `d[k] = v` on an association list: overwrite in
place if the key is present, otherwise append.  (CPython 2 dict iteration
order is unspecified; the properties proved below are order-independent.) -/
def dictInsert (d : List (String × String)) (k v : String) : List (String × String) :=
  if d.any (fun p => p.1 == k) then
    d.map (fun p => if p.1 == k then (k, v) else p)
  else
    d ++ [(k, v)]

/-- The line loop of `parse_sha512` (source lines 89-93).  Each manifest line is
represented by the list of its whitespace-separated fields, i.e. the result of
Python `line.split()`; `digest, alg, _, name = line.split()` raises `ValueError`
unless there are exactly four fields. -/
def parseLines : List (List String) → List (String × String) →
    Except PyErr (List (String × String))
  | [], d => .ok d
  | fields :: rest, d =>
    match fields with
    | [digest, alg, _mode, name] =>
      if alg ≠ "sha512" then parseLines rest d
      else parseLines rest (dictInsert d (basename name) digest)
    | _ => .error .valueError

/-- `parse_sha512(checksums, files)` (source lines 84-95): build the digest
dict from the manifest lines, then keep only the keys in the whitelist. -/
def parse_sha512 (lines : List (List String)) (files : List String) :
    Except PyErr (List (String × String)) :=
  match parseLines lines [] with
  | .error e => .error e
  | .ok d => .ok (d.filter (fun p => file_in_whitelist p.1 files))

/-- The download loop of `download_all_artifacts` (source lines 99-122),
threading the `failed_downloads` flag and the list of files written so far
(one per successful download, named by the artifact's base name).
An HTTP status error is caught (`except requests.HTTPError`) and only sets the
flag; any other `requests` exception is not caught and propagates at once. -/
def downloadLoop (outcome : String → FetchOutcome) :
    List String → Bool → List String → Except PyErr Unit × List String
  | [], failed_downloads, written =>
    (if failed_downloads then .error (.sanityException "Downloading artifacts failed")
     else .ok (), written)
  | artifact :: rest, failed_downloads, written =>
    match outcome artifact with
    | .ok => downloadLoop outcome rest failed_downloads (written ++ [basename artifact])
    | .httpError => downloadLoop outcome rest true written
    | .connError => (.error .requestError, written)

/-- `download_all_artifacts(queue, artifacts, task_id, dir_path)` (source lines
98-122), with the per-artifact network outcome supplied by `outcome`.  Returns
the control-flow result together with the base names written to the workspace. -/
def download_all_artifacts (outcome : String → FetchOutcome) (artifacts : List String) :
    Except PyErr Unit × List String :=
  downloadLoop outcome artifacts false []

/-- Environment of one `sanitize_en_US_binary` run: the artifact names advertised
for the task (`queue.listLatestArtifacts(task_id)['artifacts']`, names only), the
outcome of each artifact download, whether the two GPG subprocess calls succeed,
the whitespace-split lines of the downloaded checksums manifest, and the digest
`get_hash` computes for each file name in the workspace. -/
structure SanitizeEnv where
  listing : List String
  fetchOutcome : String → FetchOutcome
  gpgOk : Bool
  manifestLines : List (List String)
  fileDigest : String → String

/-- The checksums/signature fetch loop of `sanitize_en_US_binary` (source lines
153-174), threading the two local variables `checksums` and `signature` as
`Option String` (`none` = the Python local was never assigned).  A name ending
in ".checksums.asc" is stored as the signature, any other fetched name as the
checksums file; an HTTP status error is re-raised as `SanityException`, any
other `requests` exception propagates unchanged. -/
def fetchChecksumsLoop (env : SanitizeEnv) :
    List String → Option String → Option String →
    Except PyErr (Option String × Option String)
  | [], checksums, signature => .ok (checksums, signature)
  | artifact :: rest, checksums, signature =>
    match env.fetchOutcome artifact with
    | .connError => .error .requestError
    | .httpError => .error (.sanityException ("Failed to download " ++ basename artifact ++ " file"))
    | .ok =>
      let name := basename artifact
      if endswith name ".checksums.asc" then
        fetchChecksumsLoop env rest checksums (some name)
      else
        fetchChecksumsLoop env rest (some name) signature

/-- `validate_signatures(checksums, signature, dir_path, gpg_key_path)` (source
lines 72-81) together with its call site at line 178: evaluating an unassigned
local argument raises `NameError` (arguments are evaluated left to right); a
non-zero exit of either GPG subprocess raises
`SanityException("GPG signature check failed")`. -/
def validate_signatures (checksums signature : Option String) (gpgOk : Bool) :
    Except PyErr Unit :=
  match checksums, signature with
  | none, _ => .error (.nameError "checksums")
  | some _, none => .error (.nameError "signature")
  | some _, some _ =>
    if gpgOk then .ok () else .error (.sanityException "GPG signature check failed")

/-- `validate_checksums(_dict, dir_path)` (source lines 125-132): recompute each
file's digest and fail on the first mismatch, naming the artifact. -/
def validate_checksums (fileDigest : String → String) :
    List (String × String) → Except PyErr Unit
  | [] => .ok ()
  | (name, correct_hash) :: rest =>
    if fileDigest name ≠ correct_hash then
      .error (.sanityException ("Failed to check digest for " ++ name))
    else
      validate_checksums fileDigest rest

/-- `sanitize_en_US_binary(queue, task_id, gpg_key_path)` (source lines 139-195).
The second component records whether the temporary workspace directory
(`tempfile.mkdtemp()`, line 141) still exists when the call returns: the only
`shutil.rmtree(tempdir)` is the last statement of the function body (line 195),
so every raised exception leaves the directory in place.
`other_artifacts = list(set(artifacts) - set(checksums_artifacts))` is modelled
by a filter plus `dedup`; the Python value's element order is unspecified and
no property proved below depends on it. -/
def sanitize_en_US_binary (env : SanitizeEnv) : Except PyErr Unit × Bool :=
  let all_artifacts := env.listing
  let artifacts := all_artifacts.filter (fun k => file_in_whitelist k ALL_FILES)
  let checksums_artifacts := all_artifacts.filter (fun k => file_in_whitelist k CHECKSUMS)
  let other_artifacts := (artifacts.filter (fun k => !file_in_whitelist k CHECKSUMS)).dedup
  match fetchChecksumsLoop env checksums_artifacts none none with
  | .error e => (.error e, true)
  | .ok (checksums, signature) =>
    match validate_signatures checksums signature env.gpgOk with
    | .error e => (.error e, true)
    | .ok _ =>
      match (download_all_artifacts env.fetchOutcome other_artifacts).1 with
      | .error e => (.error e, true)
      | .ok _ =>
        match parse_sha512 env.manifestLines ALL_FILES_sub_CHECKSUMS with
        | .error e => (.error e, true)
        | .ok sha512_dict =>
          match validate_checksums env.fileDigest sha512_dict with
          | .error e => (.error e, true)
          | .ok _ => (.ok (), false)

/-- Final status the orchestrator reports for one release:
`rr.mark_as_completed` or `rr.mark_as_failed` with its message. -/
inductive ReleaseStatus where
  | completed
  | failed (msg : String)
  deriving Repr, DecidableEq

/-- One discovered release request, restricted to the fields the orchestrator
reads.  `graphId` is the `slugId()` drawn for the release at the top of the
per-release loop (source line 334); `procOutcome` is the first exception, if
any, raised inside the per-release `try` block (source lines 335-412) by the
steps from `rr.update_status` through `email_release_drivers` — for example a
`SanityException` propagating out of `sanitize_en_US_binary` via
`validate_graph_kwargs`. -/
structure Release where
  name : String
  version : String
  branch : String
  graphId : String
  procOutcome : Option PyErr
  deriving Repr, DecidableEq

/-- The fields of `branchConfig` read by the channel-decision block (source
lines 309-330).  `mirror_requiring_channels` already incorporates the
`.get('mirror_requiring_channels', [])` default. -/
structure BranchConfig where
  release_channel_mappings : List ((String → Bool) × List String)
  mirror_requiring_channels : List String
  postrelease_version_bump_enabled : Bool
  postrelease_bouncer_aliases_enabled : Bool

/-- The six channel-decision values computed once in `main` (source lines
309-330) before the per-release loop. -/
structure ChannelDecision where
  release_channels : List String
  final_verify_channels : List String
  publish_to_balrog_channels : List String
  postrelease_enabled : Bool
  postrelease_bouncer_aliases_enabled : Bool
  push_to_releases_enabled : Bool
  deriving Repr, DecidableEq

/-- Modelled from the spec: `is_candidate_release` is imported from
`kickoff.sanity`, which is not under src/.  Per spec section 4.6, a release is a
candidate iff none of its channels is the designated final/public channel
(supplied here as `finalChannel`). -/
def is_candidate_release (finalChannel : String) (channels : List String) : Bool :=
  !channels.contains finalChannel

/-- The channel-decision block of `main` (source lines 309-330): derive
`release_channels` from the version and the branch config's mappings, then
either the candidate branch (everything disabled, mirror-requiring channels
filtered out of `final_verify_channels` and `publish_to_balrog_channels`) or
the final-release branch (branch-config defaults, pushes enabled). -/
def channel_decision (finalChannel : String) (branchConfig : BranchConfig)
    (version : String) : Except PyErr ChannelDecision :=
  match update_channels version branchConfig.release_channel_mappings with
  | .error e => .error e
  | .ok release_channels =>
    if is_candidate_release finalChannel release_channels then
      .ok { release_channels := release_channels,
            final_verify_channels :=
              release_channels.filter
                (fun c => !branchConfig.mirror_requiring_channels.contains c),
            publish_to_balrog_channels :=
              release_channels.filter
                (fun c => !branchConfig.mirror_requiring_channels.contains c),
            postrelease_enabled := false,
            postrelease_bouncer_aliases_enabled := false,
            push_to_releases_enabled := false }
    else
      .ok { release_channels := release_channels,
            final_verify_channels := release_channels,
            publish_to_balrog_channels := release_channels,
            postrelease_enabled := branchConfig.postrelease_version_bump_enabled,
            postrelease_bouncer_aliases_enabled :=
              branchConfig.postrelease_bouncer_aliases_enabled,
            push_to_releases_enabled := true }

/-- The channel-related entries of the `kwargs` dict each loop iteration builds
(source lines 381, 382, 388, 391, 392, 398).  All six read the variables set
once by the channel-decision block. -/
structure SubmittedParams where
  release_channels : List String
  final_verify_channels : List String
  postrelease_bouncer_aliases_enabled : Bool
  postrelease_version_bump_enabled : Bool
  push_to_releases_enabled : Bool
  publish_to_balrog_channels : List String
  deriving Repr, DecidableEq

/-- The channel slice of the `kwargs` dict, as a function of the decision. -/
def kwargs_channels (d : ChannelDecision) : SubmittedParams :=
  { release_channels := d.release_channels,
    final_verify_channels := d.final_verify_channels,
    postrelease_bouncer_aliases_enabled := d.postrelease_bouncer_aliases_enabled,
    postrelease_version_bump_enabled := d.postrelease_enabled,
    push_to_releases_enabled := d.push_to_releases_enabled,
    publish_to_balrog_channels := d.publish_to_balrog_channels }

/-- The diagnostic passed to `rr.mark_as_failed` (source lines 419-421):
`'Failed to start release promotion (graph ID: %s)' % graph_id`. -/
def failMsg (graphId : String) : String :=
  "Failed to start release promotion (graph ID: " ++ graphId ++ ")"

/-- The per-release loop of `main` (source lines 332-423): for each release, if
no step of the `try` block raises, the release is marked completed and a graph
is submitted with the channel slice of its `kwargs`; otherwise the bare
`except:` catches the exception, sets `rc = 2` and marks the release failed
with the graph-id diagnostic, and the loop continues with the next release.
Returns the per-release records and the final `rc`. -/
def release_loop (d : ChannelDecision) :
    List Release → Nat → List (Release × ReleaseStatus × Option SubmittedParams) × Nat
  | [], rc => ([], rc)
  | release :: rest, rc =>
    match release.procOutcome with
    | none =>
      let out := release_loop d rest rc
      ((release, .completed, some (kwargs_channels d)) :: out.1, out.2)
    | some _ =>
      let out := release_loop d rest 2
      ((release, .failed (failMsg release.graphId), none) :: out.1, out.2)

/-- `main` from release discovery onward (source lines 306-426), parameterised
by the discovered wave (`rr.new_releases`) and the external collaborators: the
final/public channel used by `is_candidate_release` and the branch-config
lookup (`readBranchConfig`).  The polling loop leaves `release` bound to the
*last* element of `rr.new_releases`; the branch is its `branch` field's last
'/'-segment; the channel decision is computed once, before the per-release
loop, and a failure there propagates out of `main` uncaught.  On success the
result carries the per-release records and `rc`, which is also the process
exit code (`sys.exit(rc)` when `rc != 0`, normal exit 0 otherwise). -/
def orchestrate (finalChannel : String) (bcLookup : String → BranchConfig)
    (wave : List Release) :
    Except PyErr (List (Release × ReleaseStatus × Option SubmittedParams) × Nat) :=
  match wave.getLast? with
  | none => .ok ([], 0)
  | some release =>
    let branch := basename release.branch
    let branchConfig := bcLookup branch
    match channel_decision finalChannel branchConfig release.version with
    | .error e => .error e
    | .ok d => .ok (release_loop d wave 0)

/-- Discriminator: is the result a raised `SanityException`? -/
def isSanityError : Except PyErr Unit → Bool
  | .error (.sanityException _) => true
  | _ => false

/-- Fixture: a sanitation run whose GPG verification fails (both checksums
artifacts present and downloadable, key or signature bad). -/
def envGpgBad : SanitizeEnv :=
  { listing := ["public/build/firefox-40.0.en-US.win32.checksums",
                "public/build/firefox-40.0.en-US.win32.checksums.asc"],
    fetchOutcome := fun _ => .ok,
    gpgOk := false,
    manifestLines := [],
    fileDigest := fun _ => "" }

/-- Fixture: a fully successful sanitation run (empty manifest, no other
whitelisted artifacts). -/
def envAllOk : SanitizeEnv :=
  { listing := ["public/build/firefox-40.0.en-US.win32.checksums",
                "public/build/firefox-40.0.en-US.win32.checksums.asc"],
    fetchOutcome := fun _ => .ok,
    gpgOk := true,
    manifestLines := [],
    fileDigest := fun _ => "" }

/-- Fixture: a task listing that advertises a checksums manifest but no
detached-signature file. -/
def envNoSig : SanitizeEnv :=
  { listing := ["public/build/firefox-40.0.en-US.win32.checksums"],
    fetchOutcome := fun _ => .ok,
    gpgOk := true,
    manifestLines := [],
    fileDigest := fun _ => "" }

/-- Fixture: a listing with both checksums artifacts, everything downloadable. -/
def envBothCk : SanitizeEnv :=
  { listing := ["public/build/x.checksums", "public/build/x.checksums.asc"],
    fetchOutcome := fun _ => .ok,
    gpgOk := true,
    manifestLines := [],
    fileDigest := fun _ => "" }

/-- Fixture: a branch config mapping every version to the final channel. -/
def bcW : BranchConfig :=
  { release_channel_mappings := [(fun _ => true, ["release"])],
    mirror_requiring_channels := [],
    postrelease_version_bump_enabled := true,
    postrelease_bouncer_aliases_enabled := true }

/-- Fixture: a branch config with an empty mapping list. -/
def bcEmpty : BranchConfig :=
  { release_channel_mappings := [],
    mirror_requiring_channels := [],
    postrelease_version_bump_enabled := true,
    postrelease_bouncer_aliases_enabled := true }

/-- Fixture: a branch config whose only mapping rule is `^\d+\.0$`. -/
def bcNoMatch : BranchConfig :=
  { release_channel_mappings := [(re_major_dot_zero, ["release"])],
    mirror_requiring_channels := [],
    postrelease_version_bump_enabled := true,
    postrelease_bouncer_aliases_enabled := true }

/-- Fixture: a branch config mapping every version to the non-final channel
"beta", which also requires a mirror push (the spec's candidate scenario). -/
def bcBeta : BranchConfig :=
  { release_channel_mappings := [(fun _ => true, ["beta"])],
    mirror_requiring_channels := ["beta"],
    postrelease_version_bump_enabled := true,
    postrelease_bouncer_aliases_enabled := true }

def r1 : Release :=
  { name := "Firefox-40.0-build1", version := "40.0",
    branch := "releases/mozilla-release", graphId := "g1", procOutcome := none }

def r2 : Release :=
  { name := "Firefox-40.0-build2", version := "40.0",
    branch := "releases/mozilla-release", graphId := "g2",
    procOutcome := some (.sanityException "Failed to check digest for firefox.exe") }

def r3 : Release :=
  { name := "Firefox-40.0-build3", version := "40.0",
    branch := "releases/mozilla-release", graphId := "g3", procOutcome := none }

/-- Fixture: two successful releases with different versions and branches in
the same wave. -/
def rD1 : Release :=
  { name := "Firefox-41.0-build1", version := "41.0",
    branch := "releases/mozilla-beta", graphId := "gd1", procOutcome := none }

def rD2 : Release :=
  { name := "Firefox-40.0-build9", version := "40.0",
    branch := "releases/mozilla-release", graphId := "gd2", procOutcome := none }

/-- Fixture: releases whose (last) version has no mapping entry. -/
def rCx1 : Release :=
  { name := "Firefox-42.0-build1", version := "42.0",
    branch := "releases/mozilla-release", graphId := "gA", procOutcome := none }

def rCx2 : Release :=
  { name := "Fennec-99.9.9-build1", version := "99.9.9",
    branch := "releases/mozilla-release", graphId := "gB", procOutcome := none }

def rW1 : Release :=
  { name := "Firefox-50.0-build1", version := "50.0",
    branch := "releases/mozilla-release", graphId := "gC", procOutcome := none }

def rW2 : Release :=
  { name := "Firefox-50.0.1-build1", version := "50.0.1",
    branch := "releases/mozilla-release", graphId := "gD", procOutcome := none }

/-- The channel decision `bcW` produces for a final release. -/
def dW : ChannelDecision :=
  { release_channels := ["release"],
    final_verify_channels := ["release"],
    publish_to_balrog_channels := ["release"],
    postrelease_enabled := true,
    postrelease_bouncer_aliases_enabled := true,
    push_to_releases_enabled := true }

/-- The channel slice of `kwargs` under decision `dW`. -/
def kwW : SubmittedParams :=
  { release_channels := ["release"],
    final_verify_channels := ["release"],
    postrelease_bouncer_aliases_enabled := true,
    postrelease_version_bump_enabled := true,
    push_to_releases_enabled := true,
    publish_to_balrog_channels := ["release"] }

/-- The per-release records produced for the wave `[r1, r2, r3]`. -/
def resultsC3 : List (Release × ReleaseStatus × Option SubmittedParams) :=
  [(r1, .completed, some kwW),
   (r2, .failed (failMsg "g2"), none),
   (r3, .completed, some kwW)]

/-- The per-release records produced for the wave `[rD1, rD2]`. -/
def resultsC10 : List (Release × ReleaseStatus × Option SubmittedParams) :=
  [(rD1, .completed, some kwW), (rD2, .completed, some kwW)]

/-- Fixture: manifest lines (split into fields) with a matching sha512 entry, a
non-sha512 entry, and a sha512 entry whose name is not whitelisted. -/
def linesC6 : List (List String) :=
  [["abc", "sha512", "1024", "pub/firefox.exe"],
   ["def", "md5", "1024", "pub/firefox.dmg"],
   ["ghi", "sha512", "1024", "pub/readme.txt"]]

theorem update_channels_eq_find (version : String)
    (mappings : List ((String → Bool) × List String)) :
    update_channels version mappings =
      match mappings.find? (fun pc => pc.1 version) with
      | some pc => Except.ok pc.2
      | none => Except.error (.runtimeError ("Cannot find update channels for " ++ version)) := by
  induction mappings with
  | nil => rfl
  | cons hd tl ih =>
    obtain ⟨p, cs⟩ := hd
    cases h : p version <;> simp [update_channels, List.find?, h, ih]

theorem release_loop_map_fst (d : ChannelDecision) (rs : List Release) (rc : Nat) :
    (release_loop d rs rc).1.map (fun x => x.1) = rs := by
  induction rs generalizing rc with
  | nil => rfl
  | cons r rest ih =>
    cases h : r.procOutcome <;> simp [release_loop, h, ih]

theorem release_loop_rc (d : ChannelDecision) (rs : List Release) (rc : Nat) :
    (release_loop d rs rc).2 = if rs.any (fun r => r.procOutcome.isSome) then 2 else rc := by
  induction rs generalizing rc with
  | nil => simp [release_loop]
  | cons r rest ih =>
    cases h : r.procOutcome with
    | none => simp [release_loop, h, ih]
    | some e => simp [release_loop, h, ih]

theorem release_loop_mem (d : ChannelDecision) (rs : List Release) (rc : Nat)
    (r : Release) (st : ReleaseStatus) (p? : Option SubmittedParams)
    (hmem : (r, st, p?) ∈ (release_loop d rs rc).1) :
    (r.procOutcome = none ∧ st = .completed ∧ p? = some (kwargs_channels d)) ∨
    (r.procOutcome.isSome ∧ st = .failed (failMsg r.graphId) ∧ p? = none) := by
  induction rs generalizing rc with
  | nil => simp [release_loop] at hmem
  | cons hd rest ih =>
    cases h : hd.procOutcome with
    | none =>
      simp only [release_loop, h, List.mem_cons] at hmem
      rcases hmem with heq | hmem
      · simp only [Prod.mk.injEq] at heq
        obtain ⟨e1, e2, e3⟩ := heq
        refine Or.inl ⟨?_, e2, e3⟩
        rw [e1]; exact h
      · exact ih rc hmem
    | some e =>
      simp only [release_loop, h, List.mem_cons] at hmem
      rcases hmem with heq | hmem
      · simp only [Prod.mk.injEq] at heq
        obtain ⟨e1, e2, e3⟩ := heq
        refine Or.inr ⟨?_, ?_, e3⟩
        · rw [e1, h]; rfl
        · rw [e1]; exact e2
      · exact ih 2 hmem

/-- Claim C2 counterexample: a wave of two releases whose channel lookup finds
no mapping entry (empty mapping list).  `main` raises the channel-decision
error before the per-release loop: the error propagates uncaught out of the
orchestrator, no release is marked failed, and no release of the wave is
processed — contradicting "aborts processing of the current release only ...
and proceeds to process the remaining releases of the same wave". -/
theorem claim_C2_counterexample :
    orchestrate "release" (fun _ => bcEmpty) [rCx1, rCx2] =
      .error (.runtimeError "Cannot find update channels for 99.9.9") := by
  rfl

/-- Claim C2 (amended): a channel-decision error (raised by `update_channels`
for the last discovered release's version) aborts the entire wave before any
release is processed — it propagates out of `main` uncaught, so no release is
marked failed and none of the wave's releases is attempted. -/
theorem claim_C2 (finalChannel : String) (bcLookup : String → BranchConfig)
    (wave : List Release) (lastRelease : Release) (e : PyErr)
    (hlast : wave.getLast? = some lastRelease)
    (hdec : channel_decision finalChannel (bcLookup (basename lastRelease.branch))
              lastRelease.version = .error e) :
    orchestrate finalChannel bcLookup wave = .error e := by
  unfold orchestrate
  rw [hlast]
  simp only [hdec]

/-- Claim C2 witness: the amended claim at a concrete wave whose last release's
version "99.9.9" matches no rule of `bcNoMatch`. -/
theorem claim_C2_witness :
    orchestrate "release" (fun _ => bcNoMatch) [rW1, rCx2] =
      .error (.runtimeError "Cannot find update channels for 99.9.9") :=
  claim_C2 "release" (fun _ => bcNoMatch) [rW1, rCx2] rCx2
    (.runtimeError "Cannot find update channels for 99.9.9") rfl rfl

/-- Claim C3: when the wave is processed (the channel decision succeeded and
`main` reached the per-release loop), every release of the wave is attempted in
order; a release whose processing raises is marked failed with a diagnostic
containing its graph identifier while a release whose processing completes is
marked completed; and the final `rc` (the process exit code) is 2 if at least
one release failed and 0 if all succeeded. -/
theorem claim_C3 (finalChannel : String) (bcLookup : String → BranchConfig)
    (wave : List Release)
    (results : List (Release × ReleaseStatus × Option SubmittedParams)) (rc : Nat)
    (h : orchestrate finalChannel bcLookup wave = .ok (results, rc)) :
    results.map (fun x => x.1) = wave ∧
    (∀ r st p?, (r, st, p?) ∈ results →
      (r.procOutcome = none → st = .completed) ∧
      (r.procOutcome.isSome →
        ∃ pre post : String, st = .failed (pre ++ r.graphId ++ post))) ∧
    rc = (if wave.any (fun r => r.procOutcome.isSome) then 2 else 0) := by
  unfold orchestrate at h
  cases hlast : wave.getLast? with
  | none =>
    rw [hlast] at h
    injection h with h'
    rw [Prod.mk.injEq] at h'
    obtain ⟨h1, h2⟩ := h'
    rw [List.getLast?_eq_none_iff] at hlast
    subst hlast
    constructor
    · rw [← h1]; rfl
    constructor
    · intro r st p? hmem
      rw [← h1] at hmem
      simp at hmem
    · rw [← h2]; rfl
  | some lastRelease =>
    rw [hlast] at h
    simp only at h
    cases hdec : channel_decision finalChannel (bcLookup (basename lastRelease.branch))
        lastRelease.version with
    | error e => rw [hdec] at h; cases h
    | ok d =>
      rw [hdec] at h
      injection h with h'
      rw [Prod.mk.injEq] at h'
      obtain ⟨h1, h2⟩ := h'
      refine ⟨?_, ?_, ?_⟩
      · rw [← h1]; exact release_loop_map_fst d wave 0
      · intro r st p? hmem
        rw [← h1] at hmem
        rcases release_loop_mem d wave 0 r st p? hmem with ⟨hn, hst, _⟩ | ⟨hs, hst, _⟩
        · refine ⟨fun _ => hst, fun hsome => ?_⟩
          rw [hn] at hsome
          simp at hsome
        · refine ⟨fun hnone => ?_,
            fun _ => ⟨"Failed to start release promotion (graph ID: ", ")", hst⟩⟩
          rw [hnone] at hs
          simp at hs
      · rw [← h2, release_loop_rc]

/-- Claim C3 witness: the spec's orchestrator scenario — three discovered
releases, the second raising a `ChecksumMismatch`-style `SanityException`
during sanitation — instantiated through `claim_C3`: all three releases appear
in the results in order, and the process exit code is 2. -/
theorem claim_C3_witness :
    resultsC3.map (fun x => x.1) = [r1, r2, r3] ∧
    2 = (if [r1, r2, r3].any (fun r => r.procOutcome.isSome) then 2 else 0) :=
  ⟨(claim_C3 "release" (fun _ => bcW) [r1, r2, r3] resultsC3 2 rfl).1,
   (claim_C3 "release" (fun _ => bcW) [r1, r2, r3] resultsC3 2 rfl).2.2⟩

/-- Claim C4: for a candidate release (none of the derived channels is the
final/public channel), the decision disables `postrelease`, the bouncer
aliases, and `push_to_releases`, and both `final_verify_channels` and
`publish_to_balrog_channels` are `release_channels` with every channel in the
branch config's `mirror_requiring_channels` removed; for a final release, the
four values pass through the branch-config defaults and `push_to_releases` is
enabled. -/
theorem claim_C4 (finalChannel : String) (branchConfig : BranchConfig)
    (version : String) (release_channels : List String)
    (h : update_channels version branchConfig.release_channel_mappings = .ok release_channels) :
    (is_candidate_release finalChannel release_channels = true →
      channel_decision finalChannel branchConfig version = .ok
        { release_channels := release_channels,
          final_verify_channels :=
            release_channels.filter
              (fun c => !branchConfig.mirror_requiring_channels.contains c),
          publish_to_balrog_channels :=
            release_channels.filter
              (fun c => !branchConfig.mirror_requiring_channels.contains c),
          postrelease_enabled := false,
          postrelease_bouncer_aliases_enabled := false,
          push_to_releases_enabled := false }) ∧
    (is_candidate_release finalChannel release_channels = false →
      channel_decision finalChannel branchConfig version = .ok
        { release_channels := release_channels,
          final_verify_channels := release_channels,
          publish_to_balrog_channels := release_channels,
          postrelease_enabled := branchConfig.postrelease_version_bump_enabled,
          postrelease_bouncer_aliases_enabled :=
            branchConfig.postrelease_bouncer_aliases_enabled,
          push_to_releases_enabled := true }) := by
  unfold channel_decision
  rw [h]
  constructor <;> intro hc <;> simp [hc]

/-- Claim C4 witness: the spec's candidate scenario — `release_channels =
["beta"]` where "beta" is not the final channel and requires a mirror push —
yields empty `final_verify_channels` and `push_to_releases_enabled = false`. -/
theorem claim_C4_witness :
    update_channels "40.0b1" bcBeta.release_channel_mappings = .ok ["beta"] ∧
    is_candidate_release "release" ["beta"] = true ∧
    channel_decision "release" bcBeta "40.0b1" = .ok
      { release_channels := ["beta"],
        final_verify_channels := [],
        publish_to_balrog_channels := [],
        postrelease_enabled := false,
        postrelease_bouncer_aliases_enabled := false,
        push_to_releases_enabled := false } :=
  ⟨rfl, rfl, (claim_C4 "release" bcBeta "40.0b1" ["beta"] rfl).1 rfl⟩

/-- Claim C5: `update_channels` returns the channel set of the first mapping
entry, in declared order, whose pattern matches the version (`List.find?`),
and raises the unmapped-version error when no entry matches; in particular
"40.0" against the doctest mappings yields ["beta", "release"], "40.0.1"
yields ["release"], and any version against an empty mapping list raises. -/
theorem claim_C5 :
    (∀ (version : String) (mappings : List ((String → Bool) × List String)),
      update_channels version mappings =
        match mappings.find? (fun pc => pc.1 version) with
        | some pc => Except.ok pc.2
        | none => Except.error (.runtimeError ("Cannot find update channels for " ++ version))) ∧
    update_channels "40.0"
      [(re_major_dot_zero, ["beta", "release"]), (re_three_part_version, ["release"])] =
        .ok ["beta", "release"] ∧
    update_channels "40.0.1"
      [(re_major_dot_zero, ["beta", "release"]), (re_three_part_version, ["release"])] =
        .ok ["release"] ∧
    update_channels "99.9.9" [] =
      .error (.runtimeError "Cannot find update channels for 99.9.9") :=
  ⟨update_channels_eq_find, rfl, rfl, rfl⟩

/-- Claim C10: the channel decision is computed once, before the per-release
loop, from the version and branch of the single release left bound by the
discovery loop (the last element of the wave); consequently every release of
the wave that reaches graph submission is submitted with the channel slice of
that one decision — identical for all of them, whatever their own versions or
branches. -/
theorem claim_C10 (finalChannel : String) (bcLookup : String → BranchConfig)
    (wave : List Release)
    (results : List (Release × ReleaseStatus × Option SubmittedParams)) (rc : Nat)
    (lastRelease : Release) (d : ChannelDecision)
    (hlast : wave.getLast? = some lastRelease)
    (hdec : channel_decision finalChannel (bcLookup (basename lastRelease.branch))
              lastRelease.version = .ok d)
    (h : orchestrate finalChannel bcLookup wave = .ok (results, rc)) :
    (∀ r st p, (r, st, some p) ∈ results → p = kwargs_channels d) ∧
    (∀ ra sta pa rb stb pb, (ra, sta, some pa) ∈ results →
      (rb, stb, some pb) ∈ results → pa = pb) := by
  unfold orchestrate at h
  rw [hlast] at h
  simp only [hdec] at h
  injection h with h'
  rw [Prod.mk.injEq] at h'
  obtain ⟨h1, _⟩ := h'
  have key : ∀ r st p, (r, st, some p) ∈ results → p = kwargs_channels d := by
    intro r st p hmem
    rw [← h1] at hmem
    rcases release_loop_mem d wave 0 r st (some p) hmem with ⟨_, _, hp⟩ | ⟨_, _, hp⟩
    · exact Option.some.inj hp
    · cases hp
  refine ⟨key, fun ra sta pa rb stb pb ha hb => ?_⟩
  rw [key ra sta pa ha, key rb stb pb hb]

/-- Claim C10 witness: a wave of two releases with different versions and
branches; both are submitted with the same channel parameters, those of the
decision taken from the last release's version. -/
theorem claim_C10_witness : kwW = kwargs_channels dW ∧ kwW = kwW :=
  ⟨(claim_C10 "release" (fun _ => bcW) [rD1, rD2] resultsC10 0 rD2 dW rfl rfl rfl).1
      rD1 .completed kwW (by decide),
   (claim_C10 "release" (fun _ => bcW) [rD1, rD2] resultsC10 0 rD2 dW rfl rfl rfl).2
      rD1 .completed kwW rD2 .completed kwW (by decide) (by decide)⟩

theorem dictInsert_mem_key (d : List (String × String)) (k v k' : String) :
    (∃ w, (k', w) ∈ dictInsert d k v) ↔ k' = k ∨ ∃ w, (k', w) ∈ d := by
  unfold dictInsert
  by_cases h : d.any (fun p => p.1 == k)
  · rw [if_pos h]
    rw [List.any_eq_true] at h
    obtain ⟨q, hq, hqk⟩ := h
    rw [beq_iff_eq] at hqk
    constructor
    · rintro ⟨w, hw⟩
      rw [List.mem_map] at hw
      obtain ⟨p, hp, hfp⟩ := hw
      by_cases hpk : p.1 = k
      · rw [if_pos (by simpa using hpk)] at hfp
        rw [Prod.mk.injEq] at hfp
        exact Or.inl hfp.1.symm
      · rw [if_neg (by simpa using hpk)] at hfp
        exact Or.inr ⟨w, hfp ▸ hp⟩
    · rintro (rfl | ⟨w, hw⟩)
      · exact ⟨v, List.mem_map.mpr ⟨q, hq, by simp [hqk]⟩⟩
      · by_cases hk : k' = k
        · subst hk
          exact ⟨v, List.mem_map.mpr ⟨q, hq, by simp [hqk]⟩⟩
        · exact ⟨w, List.mem_map.mpr ⟨(k', w), hw, by simp [hk]⟩⟩
  · rw [if_neg h]
    constructor
    · rintro ⟨w, hw⟩
      rw [List.mem_append] at hw
      rcases hw with hw | hw
      · exact Or.inr ⟨w, hw⟩
      · left
        simp at hw
        exact hw.1
    · rintro (rfl | ⟨w, hw⟩)
      · exact ⟨v, by simp⟩
      · exact ⟨w, by simp [hw]⟩

theorem dictInsert_mem_pair (d : List (String × String)) (k v k' w : String)
    (h : (k', w) ∈ dictInsert d k v) : (k' = k ∧ w = v) ∨ (k', w) ∈ d := by
  unfold dictInsert at h
  by_cases ha : d.any (fun p => p.1 == k)
  · rw [if_pos ha] at h
    rw [List.mem_map] at h
    obtain ⟨p, hp, hfp⟩ := h
    by_cases hpk : p.1 = k
    · rw [if_pos (by simpa using hpk)] at hfp
      rw [Prod.mk.injEq] at hfp
      exact Or.inl ⟨hfp.1.symm, hfp.2.symm⟩
    · rw [if_neg (by simpa using hpk)] at hfp
      exact Or.inr (hfp ▸ hp)
  · rw [if_neg ha] at h
    rw [List.mem_append] at h
    rcases h with h | h
    · exact Or.inr h
    · simp at h
      exact Or.inl ⟨h.1, h.2⟩

theorem parseLines_key (lines : List (List String)) :
    ∀ d r, parseLines lines d = .ok r → ∀ k : String,
      ((∃ w, (k, w) ∈ r) ↔
        (∃ w, (k, w) ∈ d) ∨
        ∃ dg m n, [dg, "sha512", m, n] ∈ lines ∧ basename n = k) := by
  induction lines with
  | nil =>
    intro d r h k
    injection h with h'
    subst h'
    simp
  | cons fields rest ih =>
    intro d r h k
    rcases fields with _ | ⟨dg, _ | ⟨alg, _ | ⟨m, _ | ⟨n, _ | more⟩⟩⟩⟩
    · cases h
    · cases h
    · cases h
    · cases h
    · by_cases halg : alg = "sha512"
      · subst halg
        have h' : parseLines rest (dictInsert d (basename n) dg) = .ok r := by
          simpa [parseLines] using h
        rw [ih _ r h' k, dictInsert_mem_key]
        constructor
        · rintro ((rfl | hd) | ⟨dg', m', n', hmem, hbn⟩)
          · exact Or.inr ⟨dg, m, n, List.mem_cons_self _ _, rfl⟩
          · exact Or.inl hd
          · exact Or.inr ⟨dg', m', n', List.mem_cons_of_mem _ hmem, hbn⟩
        · rintro (hd | ⟨dg', m', n', hmem, hbn⟩)
          · exact Or.inl (Or.inr hd)
          · rcases List.mem_cons.mp hmem with heq | hmem'
            · simp only [List.cons.injEq, and_true] at heq
              exact Or.inl (Or.inl (by rw [← hbn, heq.2.2.2]))
            · exact Or.inr ⟨dg', m', n', hmem', hbn⟩
      · have h' : parseLines rest d = .ok r := by
          simpa [parseLines, halg] using h
        rw [ih d r h' k]
        constructor
        · rintro (hd | ⟨dg', m', n', hmem, hbn⟩)
          · exact Or.inl hd
          · exact Or.inr ⟨dg', m', n', List.mem_cons_of_mem _ hmem, hbn⟩
        · rintro (hd | ⟨dg', m', n', hmem, hbn⟩)
          · exact Or.inl hd
          · rcases List.mem_cons.mp hmem with heq | hmem'
            · simp only [List.cons.injEq, and_true] at heq
              exact absurd heq.2.1.symm halg
            · exact Or.inr ⟨dg', m', n', hmem', hbn⟩
    · cases h

theorem parseLines_pair (lines : List (List String)) :
    ∀ d r, parseLines lines d = .ok r → ∀ k w : String, (k, w) ∈ r →
      (k, w) ∈ d ∨
      ∃ dg m n, [dg, "sha512", m, n] ∈ lines ∧ basename n = k ∧ dg = w := by
  induction lines with
  | nil =>
    intro d r h k w hm
    injection h with h'
    subst h'
    exact Or.inl hm
  | cons fields rest ih =>
    intro d r h k w hm
    rcases fields with _ | ⟨dg, _ | ⟨alg, _ | ⟨m, _ | ⟨n, _ | more⟩⟩⟩⟩
    · cases h
    · cases h
    · cases h
    · cases h
    · by_cases halg : alg = "sha512"
      · subst halg
        have h' : parseLines rest (dictInsert d (basename n) dg) = .ok r := by
          simpa [parseLines] using h
        rcases ih _ r h' k w hm with hin | ⟨dg', m', n', hmem, hbn, hdg⟩
        · rcases dictInsert_mem_pair d (basename n) dg k w hin with ⟨hk, hw⟩ | hin'
          · exact Or.inr ⟨dg, m, n, List.mem_cons_self _ _, hk.symm, hw.symm⟩
          · exact Or.inl hin'
        · exact Or.inr ⟨dg', m', n', List.mem_cons_of_mem _ hmem, hbn, hdg⟩
      · have h' : parseLines rest d = .ok r := by
          simpa [parseLines, halg] using h
        rcases ih d r h' k w hm with hin | ⟨dg', m', n', hmem, hbn, hdg⟩
        · exact Or.inl hin
        · exact Or.inr ⟨dg', m', n', List.mem_cons_of_mem _ hmem, hbn, hdg⟩
    · cases h

/-- Claim C6: for every well-formed manifest (one whose parse succeeds) and
name whitelist, the parsed result has an entry under key `k` iff some line has
algorithm field "sha512" and a path whose base name is `k`, and `k` ends with
a whitelisted suffix; moreover every entry's key is the base name of such a
line's path field and its value is that line's digest field. -/
theorem claim_C6 (lines : List (List String)) (files : List String)
    (r : List (String × String))
    (h : parse_sha512 lines files = .ok r) :
    (∀ k : String,
      (∃ w, (k, w) ∈ r) ↔
        ((∃ dg m n, [dg, "sha512", m, n] ∈ lines ∧ basename n = k) ∧
          file_in_whitelist k files = true)) ∧
    (∀ k w, (k, w) ∈ r →
      ∃ dg m n, [dg, "sha512", m, n] ∈ lines ∧ basename n = k ∧ dg = w) := by
  unfold parse_sha512 at h
  cases hp : parseLines lines [] with
  | error e => rw [hp] at h; cases h
  | ok d =>
    rw [hp] at h
    injection h with h'
    subst h'
    constructor
    · intro k
      have hkey := parseLines_key lines [] d hp k
      simp only [List.not_mem_nil, exists_const, false_or] at hkey
      constructor
      · rintro ⟨w, hw⟩
        rw [List.mem_filter] at hw
        exact ⟨hkey.mp ⟨w, hw.1⟩, hw.2⟩
      · rintro ⟨hex, hwl⟩
        obtain ⟨w, hw⟩ := hkey.mpr hex
        exact ⟨w, List.mem_filter.mpr ⟨hw, hwl⟩⟩
    · intro k w hm
      rw [List.mem_filter] at hm
      rcases parseLines_pair lines [] d hp k w hm.1 with hin | hex
      · simp at hin
      · exact hex

/-- Claim C6 witness: a concrete manifest with a whitelisted sha512 line, a
non-sha512 line, and a non-whitelisted sha512 line; only the first survives,
keyed by its base name with its digest. -/
theorem claim_C6_witness :
    parse_sha512 linesC6 ALL_FILES_sub_CHECKSUMS = .ok [("firefox.exe", "abc")] ∧
    (∀ k w, (k, w) ∈ [("firefox.exe", "abc")] →
      ∃ dg m n, [dg, "sha512", m, n] ∈ linesC6 ∧ basename n = k ∧ dg = w) :=
  ⟨rfl, (claim_C6 linesC6 ALL_FILES_sub_CHECKSUMS [("firefox.exe", "abc")] rfl).2⟩

theorem parseLines_badline (lines : List (List String)) :
    ∀ d, (∃ fields ∈ lines, fields.length ≠ 4) →
      parseLines lines d = .error .valueError := by
  induction lines with
  | nil =>
    intro d h
    simp at h
  | cons fields rest ih =>
    intro d h
    rcases fields with _ | ⟨a, _ | ⟨b, _ | ⟨c, _ | ⟨e, _ | more⟩⟩⟩⟩
    · rfl
    · rfl
    · rfl
    · rfl
    · have hrest : ∃ f ∈ rest, f.length ≠ 4 := by
        rcases h with ⟨f, hf, hlen⟩
        rcases List.mem_cons.mp hf with rfl | hf'
        · simp at hlen
        · exact ⟨f, hf', hlen⟩
      by_cases hb : b = "sha512"
      · have hr := ih (dictInsert d (basename e) a) hrest
        simp [parseLines, hb, hr]
      · have hr := ih d hrest
        simp [parseLines, hb, hr]
    · rfl

/-- Claim C9: a manifest containing a line that does not split into exactly
four whitespace-separated fields fails to parse: `parse_sha512` raises the
malformed-line error (Python `ValueError` from the 4-way unpacking, the spec's
`ManifestFormatError`). -/
theorem claim_C9 (lines : List (List String)) (files : List String)
    (h : ∃ fields ∈ lines, fields.length ≠ 4) :
    parse_sha512 lines files = .error .valueError := by
  unfold parse_sha512
  rw [parseLines_badline lines [] h]

/-- Claim C9 witness: a three-field line makes the parse fail. -/
theorem claim_C9_witness :
    (∃ fields ∈ [["deadbeef", "sha512", "1024"]], fields.length ≠ 4) ∧
    parse_sha512 [["deadbeef", "sha512", "1024"]] ALL_FILES_sub_CHECKSUMS =
      .error .valueError :=
  ⟨by decide, claim_C9 _ _ (by decide)⟩

theorem downloadLoop_char (outcome : String → FetchOutcome) (l : List String) :
    ∀ failed_downloads written, (∀ a ∈ l, outcome a ≠ .connError) →
      downloadLoop outcome l failed_downloads written =
        ((if failed_downloads || l.any (fun a => outcome a == .httpError) then
            .error (.sanityException "Downloading artifacts failed")
          else .ok ()),
         written ++ (l.filter (fun a => outcome a == .ok)).map basename) := by
  induction l with
  | nil =>
    intro failed_downloads written _
    simp [downloadLoop]
  | cons a rest ih =>
    intro failed_downloads written h
    have ha : outcome a ≠ .connError := h a (List.mem_cons_self _ _)
    have hrest : ∀ x ∈ rest, outcome x ≠ .connError :=
      fun x hx => h x (List.mem_cons_of_mem _ hx)
    cases hout : outcome a with
    | ok =>
      rw [show downloadLoop outcome (a :: rest) failed_downloads written =
            downloadLoop outcome rest failed_downloads (written ++ [basename a]) by
          simp [downloadLoop, hout]]
      rw [ih failed_downloads (written ++ [basename a]) hrest]
      simp [hout, List.append_assoc]
    | httpError =>
      rw [show downloadLoop outcome (a :: rest) failed_downloads written =
            downloadLoop outcome rest true written by
          simp [downloadLoop, hout]]
      rw [ih true written hrest]
      simp [hout]
    | connError => exact absurd hout ha

/-- Claim C7 counterexample: a batch of two artifacts where the first download
raises a non-HTTP `requests` error (e.g. a connection failure or timeout).
`except requests.HTTPError` does not catch it: the error propagates
individually out of the batch (not the aggregate `SanityException`) and the
second artifact is never attempted (nothing is written for it). -/
theorem claim_C7_counterexample :
    download_all_artifacts
        (fun a => if a = "a.exe" then .connError else .ok) ["a.exe", "b.exe"] =
      (.error .requestError, []) := by
  rfl

/-- Claim C7 (amended): as long as no download raises a non-HTTP `requests`
error, the batch attempts every artifact independently (each successful
download is written, HTTP failures only set the flag), and after the loop it
raises the aggregate `SanityException` iff at least one download failed; but a
non-HTTP request error (connection failure, timeout) is not caught per item
and propagates immediately, aborting the remaining downloads. -/
theorem claim_C7 (outcome : String → FetchOutcome) (artifacts : List String)
    (h : ∀ a ∈ artifacts, outcome a ≠ .connError) :
    (download_all_artifacts outcome artifacts).1 =
      (if artifacts.any (fun a => outcome a == .httpError) then
        .error (.sanityException "Downloading artifacts failed")
      else .ok ()) ∧
    (download_all_artifacts outcome artifacts).2 =
      (artifacts.filter (fun a => outcome a == .ok)).map basename := by
  unfold download_all_artifacts
  rw [downloadLoop_char outcome artifacts false [] h]
  simp

/-- Claim C7 witness: one HTTP failure out of two artifacts — both are
attempted, the successful one is written, and the aggregate failure is
raised after the loop. -/
theorem claim_C7_witness :
    (∀ a ∈ ["c.exe", "d.exe"],
      (fun x => if x = "c.exe" then FetchOutcome.httpError else .ok) a ≠ .connError) ∧
    (download_all_artifacts
        (fun x => if x = "c.exe" then .httpError else .ok) ["c.exe", "d.exe"]).1 =
      .error (.sanityException "Downloading artifacts failed") ∧
    (download_all_artifacts
        (fun x => if x = "c.exe" then .httpError else .ok) ["c.exe", "d.exe"]).2 =
      ["d.exe"] := by
  refine ⟨by decide, ?_, ?_⟩
  · exact (claim_C7 (fun x => if x = "c.exe" then .httpError else .ok)
      ["c.exe", "d.exe"] (by decide)).1.trans (by rfl)
  · exact (claim_C7 (fun x => if x = "c.exe" then .httpError else .ok)
      ["c.exe", "d.exe"] (by decide)).2.trans (by rfl)

/-- Claim C1 counterexample: a run whose GPG signature verification fails
(both checksums artifacts present and downloadable).  `sanitize_en_US_binary`
raises the `SanityException` before ever reaching `shutil.rmtree`, so the
temporary workspace directory still exists when the call returns —
contradicting "the temporary workspace directory no longer exists when the
call returns, on every outcome". -/
theorem claim_C1_counterexample :
    (sanitize_en_US_binary envGpgBad).1 =
      .error (.sanityException "GPG signature check failed") ∧
    (sanitize_en_US_binary envGpgBad).2 = true :=
  ⟨rfl, rfl⟩

/-- Claim C1 (amended): the temporary workspace directory no longer exists
after `sanitize_en_US_binary` returns iff the run fully succeeded;
`shutil.rmtree(tempdir)` is only the last statement of the happy path, so on
every failure outcome (manifest-parse failure, signature failure, fetch
failure, checksum mismatch) the exception propagates first and the workspace
remains behind. -/
theorem claim_C1 (env : SanitizeEnv) :
    (sanitize_en_US_binary env).2 = false ↔
    (sanitize_en_US_binary env).1 = .ok () := by
  unfold sanitize_en_US_binary
  dsimp only
  split
  · simp
  · split
    · simp
    · split
      · simp
      · split
        · simp
        · split
          · simp
          · simp

/-- Claim C1 witness: the amended equivalence at a fully successful run. -/
theorem claim_C1_witness :
    (sanitize_en_US_binary envAllOk).2 = false ↔
    (sanitize_en_US_binary envAllOk).1 = .ok () :=
  claim_C1 envAllOk

theorem getLast?_cons_or {α : Type} (x : α) (ys : List α) (o : Option α) :
    (x :: ys).getLast? = ((x :: ys).getLast?).or o := by
  cases hz : (x :: ys).getLast? with
  | none =>
    rw [List.getLast?_eq_none_iff] at hz
    exact absurd hz (List.cons_ne_nil x ys)
  | some z => rfl

theorem fetchChecksumsLoop_char (env : SanitizeEnv) (l : List String) :
    ∀ c s : Option String, (∀ a ∈ l, env.fetchOutcome a = .ok) →
      fetchChecksumsLoop env l c s =
        .ok
          ((c.toList ++
              (l.filter (fun a => !endswith (basename a) ".checksums.asc")).map basename).getLast?,
           (s.toList ++
              (l.filter (fun a => endswith (basename a) ".checksums.asc")).map basename).getLast?) := by
  induction l with
  | nil =>
    intro c s _
    cases c <;> cases s <;> simp [fetchChecksumsLoop]
  | cons a rest ih =>
    intro c s h
    have ha : env.fetchOutcome a = .ok := h a (List.mem_cons_self _ _)
    have hrest : ∀ x ∈ rest, env.fetchOutcome x = .ok :=
      fun x hx => h x (List.mem_cons_of_mem _ hx)
    cases hP : endswith (basename a) ".checksums.asc" with
    | true =>
      rw [show fetchChecksumsLoop env (a :: rest) c s =
            fetchChecksumsLoop env rest c (some (basename a)) by
          simp [fetchChecksumsLoop, ha, hP]]
      rw [ih c (some (basename a)) hrest]
      simp [List.filter_cons, hP, List.getLast?_append_cons]
      exact getLast?_cons_or _ _ _
    | false =>
      rw [show fetchChecksumsLoop env (a :: rest) c s =
            fetchChecksumsLoop env rest (some (basename a)) s by
          simp [fetchChecksumsLoop, ha, hP]]
      rw [ih (some (basename a)) s hrest]
      simp [List.filter_cons, hP, List.getLast?_append_cons]
      exact getLast?_cons_or _ _ _

/-- Claim C8 counterexample: a listing advertising a checksums manifest but no
detached-signature file, with every download succeeding.  The run does fail,
but with a `NameError` for the never-assigned local `signature` — not with a
`SanityException` (the code's `SanitationError`): the missing-file case is an
unhandled unbound-local crash, not a typed sanitation failure. -/
theorem claim_C8_counterexample :
    (sanitize_en_US_binary envNoSig).1 = .error (.nameError "signature") ∧
    isSanityError (sanitize_en_US_binary envNoSig).1 = false :=
  ⟨rfl, rfl⟩

/-- Claim C8 (amended): assuming all checksums-whitelisted artifacts download
successfully, the fetch loop classifies each artifact purely by suffix — names
ending ".checksums.asc" fill the signature slot and the other whitelisted
names fill the manifest slot (the last of each in listing order wins),
independent of the order in which the two kinds appear; if no manifest-suffix
artifact is listed the run fails with `NameError` on `checksums`, and if a
manifest is listed but no signature-suffix artifact, it fails with `NameError`
on `signature` — in both cases an unbound-local error, not a
`SanityException`. -/
theorem claim_C8 (env : SanitizeEnv)
    (h : ∀ a ∈ env.listing.filter (fun k => file_in_whitelist k CHECKSUMS),
          env.fetchOutcome a = .ok) :
    (fetchChecksumsLoop env
        (env.listing.filter (fun k => file_in_whitelist k CHECKSUMS)) none none =
      .ok
        ((((env.listing.filter (fun k => file_in_whitelist k CHECKSUMS)).filter
            (fun a => !endswith (basename a) ".checksums.asc")).map basename).getLast?,
         (((env.listing.filter (fun k => file_in_whitelist k CHECKSUMS)).filter
            (fun a => endswith (basename a) ".checksums.asc")).map basename).getLast?)) ∧
    ((env.listing.filter (fun k => file_in_whitelist k CHECKSUMS)).filter
        (fun a => !endswith (basename a) ".checksums.asc") = [] →
      (sanitize_en_US_binary env).1 = .error (.nameError "checksums")) ∧
    ((env.listing.filter (fun k => file_in_whitelist k CHECKSUMS)).filter
        (fun a => !endswith (basename a) ".checksums.asc") ≠ [] →
      (env.listing.filter (fun k => file_in_whitelist k CHECKSUMS)).filter
        (fun a => endswith (basename a) ".checksums.asc") = [] →
      (sanitize_en_US_binary env).1 = .error (.nameError "signature")) := by
  have hloop := fetchChecksumsLoop_char env
    (env.listing.filter (fun k => file_in_whitelist k CHECKSUMS)) none none h
  simp only [Option.toList, List.nil_append] at hloop
  refine ⟨hloop, ?_, ?_⟩
  · intro hc
    unfold sanitize_en_US_binary
    dsimp only
    rw [hloop, hc]
    rfl
  · intro hc hs
    unfold sanitize_en_US_binary
    dsimp only
    rw [hloop, hs]
    have hsome : (((env.listing.filter (fun k => file_in_whitelist k CHECKSUMS)).filter
        (fun a => !endswith (basename a) ".checksums.asc")).map basename).getLast?.isSome := by
      rw [Option.isSome_iff_ne_none]
      intro hnone
      rw [List.getLast?_eq_none_iff, List.map_eq_nil_iff] at hnone
      exact hc hnone
    obtain ⟨x, hx⟩ := Option.isSome_iff_exists.mp hsome
    rw [hx]
    rfl

/-- Claim C8 witness: both checksums artifacts present and downloadable; the
suffix classification assigns the ".checksums.asc" name to the signature slot
and the ".checksums" name to the manifest slot. -/
theorem claim_C8_witness :
    (∀ a ∈ envBothCk.listing.filter (fun k => file_in_whitelist k CHECKSUMS),
      envBothCk.fetchOutcome a = .ok) ∧
    fetchChecksumsLoop envBothCk
        (envBothCk.listing.filter (fun k => file_in_whitelist k CHECKSUMS)) none none =
      .ok (some "x.checksums", some "x.checksums.asc") :=
  ⟨by decide, ((claim_C8 envBothCk (by decide)).1).trans (by rfl)⟩
